import Mathlib

/-!
Verification of the Airevive risk/alert engine (`ai_estimator.py`) and the
offline sync store (`scripts/offline_sync.py`), shallowly embedded in Lean.
Gas concentrations, scores and times are modelled as rationals; SQLite tables
as lists of records; the background scheduler and the remote push as explicit
state transformers parameterised by a push oracle.
-/

namespace Airevive

/-- Risk bands, as in `calculate_individual_gas_risk`. -/
inductive RiskLevel where
  | low
  | moderate
  | high
  | critical
deriving DecidableEq, Repr

instance : Fintype RiskLevel :=
  ⟨⟨{RiskLevel.low, RiskLevel.moderate, RiskLevel.high, RiskLevel.critical}, by decide⟩,
    by intro x; cases x <;> decide⟩

/-- Per-gas thresholds from `health_impact_factors`. -/
structure Thresholds where
  low : ℚ
  moderate : ℚ
  high : ℚ
  critical : ℚ
deriving DecidableEq, Repr

/-- Result of `calculate_individual_gas_risk` (the fields the logic uses;
the health-effect and action string lists are pure lookups and omitted). -/
structure GasRisk where
  level : ℚ
  risk_level : RiskLevel
  risk_score : ℚ
deriving DecidableEq, Repr

/-- Embeds `AIHealthEstimator.calculate_individual_gas_risk`: the if/elif chain on
`level` against the thresholds, returning the band and `min(risk_score, 100)`. -/
def calculate_individual_gas_risk (t : Thresholds) (level : ℚ) : GasRisk :=
  let p : RiskLevel × ℚ :=
    if level ≤ t.low then
      (RiskLevel.low, (level / t.low) * 25)
    else if level ≤ t.moderate then
      (RiskLevel.moderate, 25 + ((level - t.low) / (t.moderate - t.low)) * 25)
    else if level ≤ t.high then
      (RiskLevel.high, 50 + ((level - t.moderate) / (t.high - t.moderate)) * 30)
    else
      (RiskLevel.critical, 80 + min (((level - t.high) / (t.critical - t.high)) * 20) 20)
  { level := level, risk_level := p.1, risk_score := min p.2 100 }

/-- The three monitored gases. -/
inductive Gas where
  | co2
  | no2
  | so2
deriving DecidableEq, Repr

instance : Fintype Gas :=
  ⟨⟨{Gas.co2, Gas.no2, Gas.so2}, by decide⟩, by intro x; cases x <;> decide⟩

/-- The dictionary key used for a gas in the `readings` dict. -/
def Gas.name : Gas → String
  | Gas.co2 => "co2"
  | Gas.no2 => "no2"
  | Gas.so2 => "so2"

/-- The `health_impact_factors` table from `AIHealthEstimator.__init__`. -/
def health_impact_factors : Gas → Thresholds
  | Gas.co2 => { low := 400, moderate := 800, high := 1000, critical := 5000 }
  | Gas.no2 => { low := 40, moderate := 100, high := 200, critical := 400 }
  | Gas.so2 => { low := 20, moderate := 125, high := 500, critical := 1000 }

/-- The `readings` dict passed to `check_alerts`: string keys mapped to float
values, as an association list (Python dicts have unique keys; lookup takes
the first match). -/
abbrev Readings := List (String × ℚ)

/-- Dictionary lookup by gas name: `gas in readings` / `readings[gas]`. -/
def lookupReading (readings : Readings) (g : Gas) : Option ℚ :=
  (readings.find? (fun p => p.1 == Gas.name g)).map Prod.snd

/-- An entry of `self.active_alerts` (the alert candidate for one key). -/
structure Candidate where
  start_time : ℚ
  level : ℚ
  risk_level : RiskLevel
  risk_score : ℚ
deriving DecidableEq, Repr

/-- Embeds `self.active_alerts`: the Python dict keyed by the string
`f"{gas}_{risk_level}"`, modelled by its decoded key `(gas, band)`;
`startswith(gas)` removal corresponds to erasing every key whose first
component is the gas (the three gas names are not prefixes of one another). -/
abbrev ActiveAlerts := Gas × RiskLevel → Option Candidate

/-- The `severity` string of an emitted alert: `'critical'` or `'warning'`. -/
inductive Severity where
  | warning
  | critical
deriving DecidableEq, Repr

/-- An element of the list returned by `check_alerts` (fields the logic
computes; the message and lookup-table strings are omitted). -/
structure Alert where
  gas : Gas
  level : ℚ
  risk_level : RiskLevel
  risk_score : ℚ
  duration_minutes : ℚ
  severity : Severity
deriving DecidableEq, Repr

/-- The body of the `for gas in ['co2','no2','so2']` loop in `check_alerts`,
acting on the running `(active_alerts, alerts)` pair.
`threshold` is `self.alert_persistence_threshold` (10 minutes). -/
def processGas (threshold current_time : ℚ) (readings : Readings) (gas : Gas)
    (acc : ActiveAlerts × List Alert) : ActiveAlerts × List Alert :=
  match lookupReading readings gas with
  | none => acc
  | some level =>
    let risk := calculate_individual_gas_risk (health_impact_factors gas) level
    if risk.risk_level = RiskLevel.high ∨ risk.risk_level = RiskLevel.critical then
      let key : Gas × RiskLevel := (gas, risk.risk_level)
      let cand : Candidate :=
        match acc.1 key with
        | some c => c
        | none =>
          { start_time := current_time, level := level,
            risk_level := risk.risk_level, risk_score := risk.risk_score }
      let active : ActiveAlerts := Function.update acc.1 key (some cand)
      let alert_duration : ℚ := current_time - cand.start_time
      if threshold ≤ alert_duration then
        (active, acc.2 ++
          [{ gas := gas, level := level, risk_level := risk.risk_level,
             risk_score := risk.risk_score, duration_minutes := alert_duration,
             severity := if risk.risk_level = RiskLevel.critical
                         then Severity.critical else Severity.warning }])
      else
        (active, acc.2)
    else
      (fun k => if k.1 = gas then none else acc.1 k, acc.2)

/-- Embeds `AIHealthEstimator.check_alerts`: one evaluation tick at `current_time`,
returning the new `active_alerts` state and the emitted alert list. -/
def check_alerts (threshold current_time : ℚ) (readings : Readings)
    (st : ActiveAlerts) : ActiveAlerts × List Alert :=
  [Gas.co2, Gas.no2, Gas.so2].foldl
    (fun acc g => processGas threshold current_time readings g acc) (st, [])

/-! ## Offline sync store (`scripts/offline_sync.py`) -/

/-- A persisted row of one of the four SQLite tables: the `id`, `synced` and
`created_at` columns the sync logic reads, plus the remaining data columns
collapsed into an opaque `payload` string. -/
structure StoredRecord where
  id : ℕ
  payload : String
  synced : Bool
  created_at : ℕ
deriving DecidableEq, Repr

/-- The four tables created by `_init_database`. -/
inductive Table where
  | pollution_readings
  | alerts
  | actions
  | reports
deriving DecidableEq, Repr

/-- The iteration order of `unsynced_data.items()` in `_perform_sync`
(insertion order of the `get_unsynced_data` dict). -/
def allTables : List Table :=
  [Table.pollution_readings, Table.alerts, Table.actions, Table.reports]

/-- The database file: each table is its list of rows in insertion order. -/
structure Store where
  pollution_readings : List StoredRecord
  alerts : List StoredRecord
  actions : List StoredRecord
  reports : List StoredRecord
deriving DecidableEq, Repr

def Store.get (s : Store) : Table → List StoredRecord
  | Table.pollution_readings => s.pollution_readings
  | Table.alerts => s.alerts
  | Table.actions => s.actions
  | Table.reports => s.reports

def Store.set (s : Store) : Table → List StoredRecord → Store
  | Table.pollution_readings, l => { s with pollution_readings := l }
  | Table.alerts, l => { s with alerts := l }
  | Table.actions, l => { s with actions := l }
  | Table.reports, l => { s with reports := l }

/-- SQLite `AUTOINCREMENT`: the next id is one past the largest ever used;
with no deletions of the newest row, one past the largest present. -/
def nextId (rows : List StoredRecord) : ℕ :=
  (rows.map StoredRecord.id).foldr max 0 + 1

/-- In-memory state of an `OfflineSync` object: the database plus the
`is_online` flag. -/
structure SyncState where
  store : Store
  is_online : Bool
deriving DecidableEq, Repr

/-- Embeds `INSERT INTO <table> (..., synced) VALUES (..., 1 if self.is_online else 0)`:
the shared shape of `store_pollution_reading`, `store_alert`, `store_action`
and `store_report`. -/
def insertRecord (s : SyncState) (tbl : Table) (payload : String)
    (created_at : ℕ) : SyncState :=
  let rows := s.store.get tbl
  let newRow : StoredRecord :=
    { id := nextId rows, payload := payload,
      synced := s.is_online, created_at := created_at }
  { s with store := s.store.set tbl (rows ++ [newRow]) }

/-- Embeds `OfflineSync.store_pollution_reading`. -/
def store_pollution_reading (s : SyncState) (payload : String)
    (created_at : ℕ) : SyncState :=
  insertRecord s Table.pollution_readings payload created_at

/-- Embeds `OfflineSync.store_alert`. -/
def store_alert (s : SyncState) (payload : String) (created_at : ℕ) : SyncState :=
  insertRecord s Table.alerts payload created_at

/-- Embeds `OfflineSync.store_action`. -/
def store_action (s : SyncState) (payload : String) (created_at : ℕ) : SyncState :=
  insertRecord s Table.actions payload created_at

/-- Embeds `OfflineSync.store_report`. -/
def store_report (s : SyncState) (payload : String) (created_at : ℕ) : SyncState :=
  insertRecord s Table.reports payload created_at

/-- Embeds `SELECT * FROM <table> WHERE synced = 0`, one table of
`OfflineSync.get_unsynced_data`. -/
def unsyncedRows (s : Store) (tbl : Table) : List StoredRecord :=
  (s.get tbl).filter (fun r => !r.synced)

/-- The row-wise effect of the `UPDATE <table> SET synced = 1 WHERE id IN
(<record_ids>)` statement. -/
def markRecord (record_ids : List ℕ) (r : StoredRecord) : StoredRecord :=
  if record_ids.contains r.id then { r with synced := true } else r

/-- Embeds `OfflineSync.mark_as_synced`:
`UPDATE <table> SET synced = 1 WHERE id IN (<record_ids>)`, returning the
success boolean the Python method returns (`True` on the non-exception path). -/
def mark_as_synced (s : Store) (tbl : Table) (record_ids : List ℕ) :
    Store × Bool :=
  (s.set tbl ((s.get tbl).map (markRecord record_ids)), true)

/-- The number of rows a `mark_as_synced` call actually flips
(rows matched by id whose `synced` was still 0). -/
def flippedCount (s : Store) (tbl : Table) (record_ids : List ℕ) : ℕ :=
  ((s.get tbl).filter (fun r => record_ids.contains r.id && !r.synced)).length

/-- Embeds `OfflineSync.cleanup_old_data`: for every table,
`DELETE FROM <table> WHERE synced = 1 AND created_at < cutoff`. -/
def cleanup_old_data (s : Store) (cutoff : ℕ) : Store :=
  allTables.foldl
    (fun acc tbl => acc.set tbl
      ((acc.get tbl).filter (fun r => !(r.synced && decide (r.created_at < cutoff)))))
    s

/-- One iteration of the `for data_type, records in unsynced_data.items()`
loop of `_perform_sync`: skip an empty batch, push a non-empty one, mark it
synced on success, leave it untouched on failure. `u` is the snapshot of
unsynced rows taken before the loop. -/
def syncStep (push : Table → List StoredRecord → Bool)
    (u : Table → List StoredRecord) (acc : Store) (tbl : Table) : Store :=
  if (u tbl).isEmpty then acc
  else if push tbl (u tbl) then
    (mark_as_synced acc tbl ((u tbl).map StoredRecord.id)).1
  else acc

/-- Embeds `OfflineSync._perform_sync`, with the randomised
`_sync_to_remote_server` abstracted into the oracle `push`: fetch all
unsynced rows up front, then handle each table's batch in turn. -/
def perform_sync (push : Table → List StoredRecord → Bool) (s : Store) : Store :=
  allTables.foldl (syncStep push (fun tbl => unsyncedRows s tbl)) s

/-- Embeds `OfflineSync.force_sync`: calls `_perform_sync()` directly, with no
connectivity check, and returns its boolean result. -/
def force_sync (push : Table → List StoredRecord → Bool) (s : SyncState) :
    SyncState × Bool :=
  ({ s with store := perform_sync push s.store }, true)

/-- One iteration of the `sync_worker` loop started by `_start_sync_thread`:
`if self.is_online: self._perform_sync()` — the cached flag is consulted, no
fresh probe runs. -/
def sync_worker_tick (push : Table → List StoredRecord → Bool)
    (s : SyncState) : SyncState :=
  if s.is_online then { s with store := perform_sync push s.store } else s

/-! ## Concrete scenarios -/

/-- The empty `active_alerts` dict. -/
def noAlerts : ActiveAlerts := fun _ => none

/-- One NO₂ reading at 500 (above the NO₂ `critical` threshold 400). -/
def dipCritical : Readings := [("no2", 500)]

/-- One NO₂ reading at 150, inside the NO₂ `high` band `(100, 200]`. -/
def dipHigh : Readings := [("no2", 150)]

/-- The `active_alerts` state after the dip trace's first tick (minute 0, NO₂ 500,
critical band). -/
def dipState1 : ActiveAlerts := (check_alerts 10 0 dipCritical noAlerts).1

/-- The `active_alerts` state after the dip trace's second tick (minute 5, NO₂ 150,
high band: the dip). -/
def dipState2 : ActiveAlerts := (check_alerts 10 5 dipHigh dipState1).1

/-- The dip trace's third tick (minute 10, NO₂ back at 500). -/
def dipFinal : ActiveAlerts × List Alert := check_alerts 10 10 dipCritical dipState2

/-- The score assigned to NO₂ at 500. -/
def score500 : ℚ :=
  (calculate_individual_gas_risk (health_impact_factors Gas.no2) 500).risk_score

/-- The candidate the dip trace's first tick installs for `(no2, critical)`. -/
def dipCandidate : Candidate :=
  { start_time := 0, level := 500, risk_level := RiskLevel.critical,
    risk_score := score500 }

/-- The alert the dip trace's third tick emits. -/
def dipAlert : Alert :=
  { gas := Gas.no2, level := 500, risk_level := RiskLevel.critical,
    risk_score := score500, duration_minutes := 10,
    severity := Severity.critical }

/-- An `active_alerts` state holding one CO₂ critical candidate. -/
def exampleCo2State : ActiveAlerts :=
  Function.update noAlerts (Gas.co2, RiskLevel.critical)
    (some { start_time := 0, level := 6000, risk_level := RiskLevel.critical,
            risk_score := 100 })

/-- A fresh, empty database. -/
def emptyStore : Store :=
  { pollution_readings := [], alerts := [], actions := [], reports := [] }

/-- An `OfflineSync` whose connectivity flag is up. -/
def onlineState : SyncState := { store := emptyStore, is_online := true }

/-- A store holding one synced old reading and one unsynced old reading. -/
def mixedStore : Store :=
  { pollution_readings :=
      [{ id := 1, payload := "r1", synced := true, created_at := 0 },
       { id := 2, payload := "r2", synced := false, created_at := 0 }],
    alerts := [], actions := [], reports := [] }

/-- A store holding a single unsynced reading. -/
def oneUnsyncedStore : Store :=
  { pollution_readings :=
      [{ id := 1, payload := "r", synced := false, created_at := 0 }],
    alerts := [], actions := [], reports := [] }

/-- An `OfflineSync` whose connectivity flag is down, with one pending row. -/
def offlineState : SyncState := { store := oneUnsyncedStore, is_online := false }

/-- A remote sink that accepts every batch. -/
def alwaysPush : Table → List StoredRecord → Bool := fun _ _ => true

/-- The §8 partial-failure scenario: 5 unsynced readings, 3 unsynced alerts. -/
def partialStore : Store :=
  { pollution_readings :=
      [{ id := 1, payload := "r1", synced := false, created_at := 0 },
       { id := 2, payload := "r2", synced := false, created_at := 1 },
       { id := 3, payload := "r3", synced := false, created_at := 2 },
       { id := 4, payload := "r4", synced := false, created_at := 3 },
       { id := 5, payload := "r5", synced := false, created_at := 4 }],
    alerts :=
      [{ id := 1, payload := "a1", synced := false, created_at := 0 },
       { id := 2, payload := "a2", synced := false, created_at := 1 },
       { id := 3, payload := "a3", synced := false, created_at := 2 }],
    actions := [], reports := [] }

/-- A remote sink that rejects alert batches and accepts everything else. -/
def partialPush : Table → List StoredRecord → Bool :=
  fun tbl _ => decide (tbl ≠ Table.alerts)

/-! ## Risk scorer lemmas -/

lemma cigr_eq_low {t : Thresholds} {v : ℚ} (h : v ≤ t.low) :
    calculate_individual_gas_risk t v =
      { level := v, risk_level := RiskLevel.low,
        risk_score := min ((v / t.low) * 25) 100 } := by
  simp [calculate_individual_gas_risk, h]

lemma cigr_eq_moderate {t : Thresholds} {v : ℚ} (h1 : ¬ v ≤ t.low)
    (h2 : v ≤ t.moderate) :
    calculate_individual_gas_risk t v =
      { level := v, risk_level := RiskLevel.moderate,
        risk_score := min (25 + ((v - t.low) / (t.moderate - t.low)) * 25) 100 } := by
  simp [calculate_individual_gas_risk, h1, h2]

lemma cigr_eq_high {t : Thresholds} {v : ℚ} (hlm : t.low ≤ t.moderate)
    (h1 : ¬ v ≤ t.moderate) (h2 : v ≤ t.high) :
    calculate_individual_gas_risk t v =
      { level := v, risk_level := RiskLevel.high,
        risk_score := min (50 + ((v - t.moderate) / (t.high - t.moderate)) * 30) 100 } := by
  have h0 : ¬ v ≤ t.low := fun hc => h1 (hc.trans hlm)
  simp [calculate_individual_gas_risk, h0, h1, h2]

lemma cigr_eq_critical {t : Thresholds} {v : ℚ} (hlm : t.low ≤ t.moderate)
    (hmh : t.moderate ≤ t.high) (h : ¬ v ≤ t.high) :
    calculate_individual_gas_risk t v =
      { level := v, risk_level := RiskLevel.critical,
        risk_score :=
          min (80 + min (((v - t.high) / (t.critical - t.high)) * 20) 20) 100 } := by
  have h2 : ¬ v ≤ t.moderate := fun hc => h (hc.trans hmh)
  have h1 : ¬ v ≤ t.low := fun hc => h2 (hc.trans hlm)
  simp [calculate_individual_gas_risk, h1, h2, h]

/-! ## Alert engine lemmas -/

lemma processGas_none {θ cur : ℚ} {rd : Readings} {g : Gas}
    {acc : ActiveAlerts × List Alert} (h : lookupReading rd g = none) :
    processGas θ cur rd g acc = acc := by
  simp [processGas, h]

/-- A `processGas` step for gas `g` touches no key of another gas. -/
lemma processGas_state_ne_gas (θ cur : ℚ) (rd : Readings) (g : Gas)
    (acc : ActiveAlerts × List Alert) (k : Gas × RiskLevel) (hk : k.1 ≠ g) :
    (processGas θ cur rd g acc).1 k = acc.1 k := by
  unfold processGas
  cases hrd : lookupReading rd g with
  | none => rfl
  | some level =>
    have hne : k ≠ (g, (calculate_individual_gas_risk (health_impact_factors g) level).risk_level) := by
      intro h
      exact hk (congrArg Prod.fst h)
    by_cases hq : (calculate_individual_gas_risk (health_impact_factors g) level).risk_level
        = RiskLevel.high ∨
        (calculate_individual_gas_risk (health_impact_factors g) level).risk_level
        = RiskLevel.critical
    · simp only [hq, if_true, if_pos]
      split <;> simp [Function.update_noteq hne, hk]
    · simp [hq, hk]

/-- In the qualifying (`high`/`critical`) branch, only the key
`(gas, band)` of the current assessment is touched. -/
lemma processGas_state_ne_key (θ cur : ℚ) (rd : Readings) (g : Gas)
    (acc : ActiveAlerts × List Alert) (level : ℚ)
    (hrd : lookupReading rd g = some level)
    (hq : (calculate_individual_gas_risk (health_impact_factors g) level).risk_level
        = RiskLevel.high ∨
        (calculate_individual_gas_risk (health_impact_factors g) level).risk_level
        = RiskLevel.critical)
    (k : Gas × RiskLevel)
    (hk : k ≠ (g, (calculate_individual_gas_risk (health_impact_factors g) level).risk_level)) :
    (processGas θ cur rd g acc).1 k = acc.1 k := by
  unfold processGas
  simp only [hrd, hq, if_true]
  split <;> simp [Function.update_noteq hk]

/-- A tick whose band for `g` is `low` or `moderate` erases every candidate
of `g` (the `startswith(gas)` removal loop). -/
lemma processGas_clears (θ cur : ℚ) (rd : Readings) (g : Gas)
    (acc : ActiveAlerts × List Alert) (level : ℚ)
    (hrd : lookupReading rd g = some level)
    (hq : ¬ ((calculate_individual_gas_risk (health_impact_factors g) level).risk_level
        = RiskLevel.high ∨
        (calculate_individual_gas_risk (health_impact_factors g) level).risk_level
        = RiskLevel.critical)) :
    ∀ b : RiskLevel, (processGas θ cur rd g acc).1 (g, b) = none := by
  intro b
  unfold processGas
  simp [hrd, hq]

/-- A candidate key that was absent and is present after the step was
created at this tick: its `start_time` is `current_time`. -/
lemma processGas_new_candidate (θ cur : ℚ) (rd : Readings) (g : Gas)
    (acc : ActiveAlerts × List Alert) (k : Gas × RiskLevel) (c : Candidate)
    (h0 : acc.1 k = none) (h1 : (processGas θ cur rd g acc).1 k = some c) :
    c.start_time = cur := by
  unfold processGas at h1
  cases hrd : lookupReading rd g with
  | none =>
    rw [hrd] at h1
    rw [h0] at h1
    exact absurd h1 (by simp)
  | some level =>
    rw [hrd] at h1
    by_cases hq : (calculate_individual_gas_risk (health_impact_factors g) level).risk_level
        = RiskLevel.high ∨
        (calculate_individual_gas_risk (health_impact_factors g) level).risk_level
        = RiskLevel.critical
    · simp only [hq, if_true] at h1
      by_cases hk : k = (g, (calculate_individual_gas_risk (health_impact_factors g) level).risk_level)
      · subst hk
        rw [h0] at h1
        split at h1 <;>
          · simp only [Function.update_same] at h1
            cases h1
            rfl
      · split at h1 <;>
          · simp only [Function.update_noteq hk] at h1
            rw [h0] at h1
            exact absurd h1 (by simp)
    · simp only [hq, if_false] at h1
      by_cases hk : k.1 = g
      · simp only [hk, if_true] at h1
        exact absurd h1 (by simp)
      · simp only [hk, if_false] at h1
        rw [h0] at h1
        exact absurd h1 (by simp)

/-- Provenance of an emitted alert: with a positive persistence threshold,
an alert added by a `processGas` step is for this gas and is backed by a
candidate that already existed before the step, whose age is at least the
threshold. -/
lemma processGas_alert_provenance (θ cur : ℚ) (rd : Readings) (g : Gas)
    (acc : ActiveAlerts × List Alert) (a : Alert) (hpos : 0 < θ)
    (ha : a ∈ (processGas θ cur rd g acc).2) :
    a ∈ acc.2 ∨
      (a.gas = g ∧ ∃ c, acc.1 (g, a.risk_level) = some c ∧
        a.duration_minutes = cur - c.start_time ∧ θ ≤ a.duration_minutes) := by
  unfold processGas at ha
  cases hrd : lookupReading rd g with
  | none =>
    rw [hrd] at ha
    exact Or.inl ha
  | some level =>
    rw [hrd] at ha
    by_cases hq : (calculate_individual_gas_risk (health_impact_factors g) level).risk_level
        = RiskLevel.high ∨
        (calculate_individual_gas_risk (health_impact_factors g) level).risk_level
        = RiskLevel.critical
    · simp only [hq, if_true] at ha
      cases hc : acc.1 (g, (calculate_individual_gas_risk (health_impact_factors g) level).risk_level) with
      | none =>
        simp only [hc] at ha
        have hd : ¬ θ ≤ cur - cur := by
          rw [sub_self]
          exact not_le.mpr hpos
        rw [if_neg hd] at ha
        dsimp only at ha
        exact Or.inl ha
      | some c =>
        simp only [hc] at ha
        by_cases hd : θ ≤ cur - c.start_time
        · rw [if_pos hd] at ha
          dsimp only at ha
          rcases List.mem_append.mp ha with ha | ha
          · exact Or.inl ha
          · rcases List.mem_singleton.mp ha with rfl
            exact Or.inr ⟨rfl, c, hc, rfl, hd⟩
        · rw [if_neg hd] at ha
          dsimp only at ha
          exact Or.inl ha
    · simp only [hq, if_false] at ha
      exact Or.inl ha

/-- The tick is the three `processGas` steps in gas order. -/
lemma check_alerts_unfold (θ cur : ℚ) (rd : Readings) (st : ActiveAlerts) :
    check_alerts θ cur rd st =
      processGas θ cur rd Gas.so2
        (processGas θ cur rd Gas.no2 (processGas θ cur rd Gas.co2 (st, []))) := rfl

/-- Every alert a tick emits is backed by a candidate that existed before
the tick, at least `threshold` minutes old (threshold positive). -/
lemma check_alerts_alert_provenance (θ cur : ℚ) (rd : Readings)
    (st : ActiveAlerts) (a : Alert) (hpos : 0 < θ)
    (ha : a ∈ (check_alerts θ cur rd st).2) :
    ∃ c, st (a.gas, a.risk_level) = some c ∧
      a.duration_minutes = cur - c.start_time ∧ θ ≤ a.duration_minutes := by
  rw [check_alerts_unfold] at ha
  rcases processGas_alert_provenance _ _ _ _ _ a hpos ha with
    ha2 | ⟨hg, c, hc, hdur, hθ⟩
  · rcases processGas_alert_provenance _ _ _ _ _ a hpos ha2 with
      ha1 | ⟨hg, c, hc, hdur, hθ⟩
    · rcases processGas_alert_provenance _ _ _ _ _ a hpos ha1 with
        ha0 | ⟨hg, c, hc, hdur, hθ⟩
      · exact absurd ha0 (List.not_mem_nil a)
      · exact ⟨c, by rw [hg]; exact hc, hdur, hθ⟩
    · rw [processGas_state_ne_gas θ cur rd Gas.co2 (st, [])
          (Gas.no2, a.risk_level) (show Gas.no2 ≠ Gas.co2 by decide)] at hc
      exact ⟨c, by rw [hg]; exact hc, hdur, hθ⟩
  · rw [processGas_state_ne_gas θ cur rd Gas.no2 _
        (Gas.so2, a.risk_level) (show Gas.so2 ≠ Gas.no2 by decide),
      processGas_state_ne_gas θ cur rd Gas.co2 (st, [])
        (Gas.so2, a.risk_level) (show Gas.so2 ≠ Gas.co2 by decide)] at hc
    exact ⟨c, by rw [hg]; exact hc, hdur, hθ⟩

/-- A tick whose band for a present gas is `low` or `moderate` leaves no
candidate for that gas, whatever the pre-state held. -/
lemma check_alerts_clears (θ cur : ℚ) (rd : Readings) (st : ActiveAlerts)
    (g : Gas) (v : ℚ) (hrd : lookupReading rd g = some v)
    (hlm : (calculate_individual_gas_risk (health_impact_factors g) v).risk_level
        = RiskLevel.low ∨
      (calculate_individual_gas_risk (health_impact_factors g) v).risk_level
        = RiskLevel.moderate) :
    ∀ b : RiskLevel, (check_alerts θ cur rd st).1 (g, b) = none := by
  intro b
  have hq : ¬ ((calculate_individual_gas_risk (health_impact_factors g) v).risk_level
      = RiskLevel.high ∨
      (calculate_individual_gas_risk (health_impact_factors g) v).risk_level
      = RiskLevel.critical) := by
    rcases hlm with h | h <;> rw [h] <;> decide
  rw [check_alerts_unfold]
  cases g with
  | co2 =>
    rw [processGas_state_ne_gas θ cur rd Gas.so2 _ (Gas.co2, b) (show Gas.co2 ≠ Gas.so2 by decide),
      processGas_state_ne_gas θ cur rd Gas.no2 _ (Gas.co2, b) (show Gas.co2 ≠ Gas.no2 by decide)]
    exact processGas_clears θ cur rd Gas.co2 (st, []) v hrd hq b
  | no2 =>
    rw [processGas_state_ne_gas θ cur rd Gas.so2 _ (Gas.no2, b) (show Gas.no2 ≠ Gas.so2 by decide)]
    exact processGas_clears θ cur rd Gas.no2 _ v hrd hq b
  | so2 =>
    exact processGas_clears θ cur rd Gas.so2 _ v hrd hq b

/-- A key that is empty before the tick and holds a candidate after it was
filled at this tick: the candidate's `start_time` is the tick's time. -/
lemma check_alerts_new_candidate (θ cur : ℚ) (rd : Readings)
    (st : ActiveAlerts) (k : Gas × RiskLevel) (c : Candidate)
    (h0 : st k = none) (h1 : (check_alerts θ cur rd st).1 k = some c) :
    c.start_time = cur := by
  rw [check_alerts_unfold] at h1
  cases hA : (processGas θ cur rd Gas.co2 (st, [])).1 k with
  | some c1 =>
    have hk : k.1 = Gas.co2 := by
      by_contra hk
      rw [processGas_state_ne_gas θ cur rd Gas.co2 (st, []) k hk] at hA
      have hA2 : st k = some c1 := hA
      rw [h0] at hA2
      exact absurd hA2 (by simp)
    rw [processGas_state_ne_gas θ cur rd Gas.so2 _ k (by rw [hk]; decide),
      processGas_state_ne_gas θ cur rd Gas.no2 _ k (by rw [hk]; decide),
      hA] at h1
    cases h1
    exact processGas_new_candidate θ cur rd Gas.co2 (st, []) k c h0 hA
  | none =>
    cases hB : (processGas θ cur rd Gas.no2 (processGas θ cur rd Gas.co2 (st, []))).1 k with
    | some c2 =>
      have hk : k.1 = Gas.no2 := by
        by_contra hk
        rw [processGas_state_ne_gas θ cur rd Gas.no2 _ k hk] at hB
        rw [hA] at hB
        exact absurd hB (by simp)
      rw [processGas_state_ne_gas θ cur rd Gas.so2 _ k (by rw [hk]; decide),
        hB] at h1
      cases h1
      exact processGas_new_candidate θ cur rd Gas.no2 _ k c hA hB
    | none =>
      exact processGas_new_candidate θ cur rd Gas.so2 _ k c hB h1

/-- A tick whose band for a present gas is `high` leaves the gas's
`critical` key untouched (candidates are removed only on `low`/`moderate`). -/
lemma check_alerts_high_keeps_critical (θ cur : ℚ) (rd : Readings)
    (st : ActiveAlerts) (g : Gas) (v : ℚ)
    (hrd : lookupReading rd g = some v)
    (hq : (calculate_individual_gas_risk (health_impact_factors g) v).risk_level
        = RiskLevel.high) :
    (check_alerts θ cur rd st).1 (g, RiskLevel.critical)
      = st (g, RiskLevel.critical) := by
  have hkey : (g, RiskLevel.critical)
      ≠ (g, (calculate_individual_gas_risk (health_impact_factors g) v).risk_level) := by
    rw [hq]
    intro h
    exact absurd (congrArg Prod.snd h)
      (show ¬ RiskLevel.critical = RiskLevel.high by decide)
  rw [check_alerts_unfold]
  cases g with
  | co2 =>
    rw [processGas_state_ne_gas θ cur rd Gas.so2 _ (Gas.co2, RiskLevel.critical) (by decide),
      processGas_state_ne_gas θ cur rd Gas.no2 _ (Gas.co2, RiskLevel.critical) (by decide)]
    exact processGas_state_ne_key θ cur rd Gas.co2 (st, []) v hrd (Or.inl hq) _ hkey
  | no2 =>
    rw [processGas_state_ne_gas θ cur rd Gas.so2 _ (Gas.no2, RiskLevel.critical) (by decide),
      processGas_state_ne_key θ cur rd Gas.no2 _ v hrd (Or.inl hq) _ hkey]
    exact processGas_state_ne_gas θ cur rd Gas.co2 (st, []) (Gas.no2, RiskLevel.critical) (by decide)
  | so2 =>
    rw [processGas_state_ne_key θ cur rd Gas.so2 _ v hrd (Or.inl hq) _ hkey,
      processGas_state_ne_gas θ cur rd Gas.no2 _ (Gas.so2, RiskLevel.critical) (by decide)]
    exact processGas_state_ne_gas θ cur rd Gas.co2 (st, []) (Gas.so2, RiskLevel.critical) (by decide)

/-- In the qualifying branch with a pre-existing candidate at least
`threshold` old, the step appends exactly the alert built from the current
assessment and the candidate's age. -/
lemma processGas_emits (θ cur : ℚ) (rd : Readings) (g : Gas)
    (acc : ActiveAlerts × List Alert) (level : ℚ) (c : Candidate)
    (hrd : lookupReading rd g = some level)
    (hq : (calculate_individual_gas_risk (health_impact_factors g) level).risk_level
        = RiskLevel.high ∨
        (calculate_individual_gas_risk (health_impact_factors g) level).risk_level
        = RiskLevel.critical)
    (hc : acc.1 (g, (calculate_individual_gas_risk (health_impact_factors g) level).risk_level)
        = some c)
    (hd : θ ≤ cur - c.start_time) :
    (processGas θ cur rd g acc).2 = acc.2 ++
      [{ gas := g, level := level,
         risk_level := (calculate_individual_gas_risk (health_impact_factors g) level).risk_level,
         risk_score := (calculate_individual_gas_risk (health_impact_factors g) level).risk_score,
         duration_minutes := cur - c.start_time,
         severity := if (calculate_individual_gas_risk (health_impact_factors g) level).risk_level
             = RiskLevel.critical then Severity.critical else Severity.warning }] := by
  unfold processGas
  simp only [hrd, hq, if_true, hc]
  rw [if_pos hd]

/-- In the qualifying branch with no candidate at the key yet, the step
installs a fresh candidate started at the current time. -/
lemma processGas_creates (θ cur : ℚ) (rd : Readings) (g : Gas)
    (acc : ActiveAlerts × List Alert) (level : ℚ)
    (hrd : lookupReading rd g = some level)
    (hq : (calculate_individual_gas_risk (health_impact_factors g) level).risk_level
        = RiskLevel.high ∨
        (calculate_individual_gas_risk (health_impact_factors g) level).risk_level
        = RiskLevel.critical)
    (hc : acc.1 (g, (calculate_individual_gas_risk (health_impact_factors g) level).risk_level)
        = none) :
    (processGas θ cur rd g acc).1
        (g, (calculate_individual_gas_risk (health_impact_factors g) level).risk_level)
      = some { start_time := cur, level := level,
               risk_level := (calculate_individual_gas_risk (health_impact_factors g) level).risk_level,
               risk_score := (calculate_individual_gas_risk (health_impact_factors g) level).risk_score } := by
  unfold processGas
  simp only [hrd, hq, if_true, hc]
  split <;> exact Function.update_same _ _ _

/-- The step `processGas` reads the readings dict only through `lookupReading`. -/
lemma processGas_congr (θ cur : ℚ) (rd rd' : Readings) (g : Gas)
    (acc : ActiveAlerts × List Alert)
    (h : lookupReading rd g = lookupReading rd' g) :
    processGas θ cur rd g acc = processGas θ cur rd' g acc := by
  unfold processGas
  rw [h]

/-- The tick `check_alerts` reads the readings dict only through the three gas
lookups. -/
lemma check_alerts_congr (θ cur : ℚ) (rd rd' : Readings) (st : ActiveAlerts)
    (h : ∀ g : Gas, lookupReading rd g = lookupReading rd' g) :
    check_alerts θ cur rd st = check_alerts θ cur rd' st := by
  rw [check_alerts_unfold, check_alerts_unfold,
    processGas_congr θ cur rd rd' Gas.co2 _ (h Gas.co2),
    processGas_congr θ cur rd rd' Gas.no2 _ (h Gas.no2),
    processGas_congr θ cur rd rd' Gas.so2 _ (h Gas.so2)]

/-- Inserting an entry whose key is not a gas name changes no gas lookup. -/
lemma lookupReading_insert_unknown (r₁ r₂ : Readings) (n : String) (v : ℚ)
    (g : Gas) (hn : n ≠ Gas.name g) :
    lookupReading (r₁ ++ (n, v) :: r₂) g = lookupReading (r₁ ++ r₂) g := by
  unfold lookupReading
  rw [List.find?_append, List.find?_append,
    List.find?_cons_of_neg _ (by simpa using hn)]

/-- A strictly negative reading lands in the `level ≤ low` branch: band
`low`. -/
lemma cigr_neg_band_low (t : Thresholds) (v : ℚ) (h0 : 0 < t.low)
    (hv : v < 0) :
    (calculate_individual_gas_risk t v).risk_level = RiskLevel.low := by
  rw [cigr_eq_low (le_of_lt (lt_trans hv h0))]

/-- Each gas's `low` threshold in `health_impact_factors` is positive. -/
lemma health_impact_factors_low_pos (g : Gas) :
    0 < (health_impact_factors g).low := by
  cases g <;> norm_num [health_impact_factors]

/-- NO₂ at 500 is in the critical band. -/
lemma no2_band_500 :
    (calculate_individual_gas_risk (health_impact_factors Gas.no2) 500).risk_level
      = RiskLevel.critical := by decide

/-- NO₂ at 150 is in the high band. -/
lemma no2_band_150 :
    (calculate_individual_gas_risk (health_impact_factors Gas.no2) 150).risk_level
      = RiskLevel.high := by decide

/-- The first dip tick installs the critical candidate at minute 0. -/
lemma dipState1_critical :
    dipState1 (Gas.no2, RiskLevel.critical) = some dipCandidate := by
  unfold dipState1
  rw [check_alerts_unfold,
    processGas_state_ne_gas 10 0 dipCritical Gas.so2 _
      (Gas.no2, RiskLevel.critical) (show Gas.no2 ≠ Gas.so2 by decide),
    processGas_none (show lookupReading dipCritical Gas.co2 = none from rfl)]
  have h := processGas_creates 10 0 dipCritical Gas.no2 (noAlerts, []) 500 rfl
    (Or.inr no2_band_500) (by rw [no2_band_500]; rfl)
  rw [no2_band_500] at h
  exact h

/-- The high-band dip tick keeps the critical candidate unchanged. -/
lemma dipState2_critical :
    dipState2 (Gas.no2, RiskLevel.critical) = some dipCandidate := by
  unfold dipState2
  rw [check_alerts_high_keeps_critical 10 5 dipHigh dipState1 Gas.no2 150 rfl
    no2_band_150]
  exact dipState1_critical

/-- The third dip tick emits exactly the critical alert with duration 10
minutes, though the band at minute 5 was only high. -/
lemma dipFinal_alerts : dipFinal.2 = [dipAlert] := by
  unfold dipFinal
  rw [check_alerts_unfold,
    processGas_none (show lookupReading dipCritical Gas.co2 = none from rfl),
    processGas_none (show lookupReading dipCritical Gas.so2 = none from rfl)]
  have hc : (dipState2, ([] : List Alert)).1
      (Gas.no2, (calculate_individual_gas_risk (health_impact_factors Gas.no2) 500).risk_level)
      = some dipCandidate := by
    rw [no2_band_500]
    exact dipState2_critical
  have h := processGas_emits 10 10 dipCritical Gas.no2 (dipState2, []) 500
    dipCandidate rfl (Or.inr no2_band_500) hc
    (by norm_num [dipCandidate])
  rw [h]
  simp [no2_band_500, dipAlert, dipCandidate, score500]

/-- C1: for ordered positive thresholds and a non-negative value,
`calculate_individual_gas_risk` places the value in the band given by the
closed-boundary comparisons, computes exactly the piecewise-linear score of
each band, and the returned score lies in `[0, 100]`. -/
theorem c1_gas_risk_band_formulas (t : Thresholds) (v : ℚ)
    (h0 : 0 < t.low) (h1 : t.low < t.moderate) (h2 : t.moderate < t.high)
    (h3 : t.high < t.critical) (hv : 0 ≤ v) :
    (v ≤ t.low →
       (calculate_individual_gas_risk t v).risk_level = RiskLevel.low ∧
       (calculate_individual_gas_risk t v).risk_score = (v / t.low) * 25) ∧
    (t.low < v → v ≤ t.moderate →
       (calculate_individual_gas_risk t v).risk_level = RiskLevel.moderate ∧
       (calculate_individual_gas_risk t v).risk_score =
         25 + ((v - t.low) / (t.moderate - t.low)) * 25) ∧
    (t.moderate < v → v ≤ t.high →
       (calculate_individual_gas_risk t v).risk_level = RiskLevel.high ∧
       (calculate_individual_gas_risk t v).risk_score =
         50 + ((v - t.moderate) / (t.high - t.moderate)) * 30) ∧
    (t.high < v →
       (calculate_individual_gas_risk t v).risk_level = RiskLevel.critical ∧
       (calculate_individual_gas_risk t v).risk_score =
         80 + min (((v - t.high) / (t.critical - t.high)) * 20) 20) ∧
    0 ≤ (calculate_individual_gas_risk t v).risk_score ∧
    (calculate_individual_gas_risk t v).risk_score ≤ 100 := by
  have hlm : t.low ≤ t.moderate := le_of_lt h1
  have hmh : t.moderate ≤ t.high := le_of_lt h2
  rcases le_or_lt v t.low with hA | hA
  · have heq := cigr_eq_low (t := t) hA
    have hd1 : v / t.low ≤ 1 := (div_le_one h0).mpr hA
    have hd0 : 0 ≤ v / t.low := div_nonneg hv h0.le
    have hr1 : (v / t.low) * 25 ≤ 100 := by nlinarith
    have hr0 : 0 ≤ (v / t.low) * 25 := by nlinarith
    refine ⟨fun _ => ⟨by rw [heq], by rw [heq]; exact min_eq_left hr1⟩,
      fun hc _ => absurd hA (not_le.mpr hc),
      fun hc _ => absurd (hA.trans hlm) (not_le.mpr hc),
      fun hc => absurd ((hA.trans hlm).trans hmh) (not_le.mpr hc),
      by rw [heq]; exact le_min hr0 (by norm_num),
      by rw [heq]; exact min_le_right _ _⟩
  · rcases le_or_lt v t.moderate with hB | hB
    · have heq := cigr_eq_moderate (t := t) (not_le.mpr hA) hB
      have hden : (0:ℚ) < t.moderate - t.low := by linarith
      have hd1 : (v - t.low) / (t.moderate - t.low) ≤ 1 :=
        (div_le_one hden).mpr (by linarith)
      have hd0 : 0 ≤ (v - t.low) / (t.moderate - t.low) :=
        div_nonneg (by linarith) hden.le
      have hr1 : 25 + ((v - t.low) / (t.moderate - t.low)) * 25 ≤ 100 := by nlinarith
      have hr0 : 0 ≤ 25 + ((v - t.low) / (t.moderate - t.low)) * 25 := by nlinarith
      refine ⟨fun hc => absurd hc (not_le.mpr hA),
        fun _ _ => ⟨by rw [heq], by rw [heq]; exact min_eq_left hr1⟩,
        fun hc _ => absurd hB (not_le.mpr hc),
        fun hc => absurd (hB.trans hmh) (not_le.mpr hc),
        by rw [heq]; exact le_min hr0 (by norm_num),
        by rw [heq]; exact min_le_right _ _⟩
    · rcases le_or_lt v t.high with hC | hC
      · have heq := cigr_eq_high (t := t) hlm (not_le.mpr hB) hC
        have hden : (0:ℚ) < t.high - t.moderate := by linarith
        have hd1 : (v - t.moderate) / (t.high - t.moderate) ≤ 1 :=
          (div_le_one hden).mpr (by linarith)
        have hd0 : 0 ≤ (v - t.moderate) / (t.high - t.moderate) :=
          div_nonneg (by linarith) hden.le
        have hr1 : 50 + ((v - t.moderate) / (t.high - t.moderate)) * 30 ≤ 100 := by
          nlinarith
        have hr0 : 0 ≤ 50 + ((v - t.moderate) / (t.high - t.moderate)) * 30 := by
          nlinarith
        refine ⟨fun hc => absurd hc (not_le.mpr hA),
          fun _ hc => absurd hc (not_le.mpr hB),
          fun _ _ => ⟨by rw [heq], by rw [heq]; exact min_eq_left hr1⟩,
          fun hc => absurd hC (not_le.mpr hc),
          by rw [heq]; exact le_min hr0 (by norm_num),
          by rw [heq]; exact min_le_right _ _⟩
      · have heq := cigr_eq_critical (t := t) hlm hmh (not_le.mpr hC)
        have hden : (0:ℚ) < t.critical - t.high := by linarith
        have hd0 : 0 ≤ ((v - t.high) / (t.critical - t.high)) * 20 := by
          have := div_nonneg (by linarith : (0:ℚ) ≤ v - t.high) hden.le
          nlinarith
        have hm0 : 0 ≤ min (((v - t.high) / (t.critical - t.high)) * 20) 20 :=
          le_min hd0 (by norm_num)
        have hm1 : min (((v - t.high) / (t.critical - t.high)) * 20) 20 ≤ 20 :=
          min_le_right _ _
        have hr1 : 80 + min (((v - t.high) / (t.critical - t.high)) * 20) 20 ≤ 100 := by
          linarith
        have hr0 : 0 ≤ 80 + min (((v - t.high) / (t.critical - t.high)) * 20) 20 := by
          linarith
        refine ⟨fun hc => absurd hc (not_le.mpr hA),
          fun _ hc => absurd hc (not_le.mpr hB),
          fun _ hc => absurd hc (not_le.mpr hC),
          fun _ => ⟨by rw [heq], by rw [heq]; exact min_eq_left hr1⟩,
          by rw [heq]; exact le_min hr0 (by norm_num),
          by rw [heq]; exact min_le_right _ _⟩

/-- C1 witness: at the NO₂ thresholds and reading 250, the theorem applies
and yields the critical band with a score inside `[0, 100]`. -/
theorem c1_gas_risk_band_formulas_witness :
    (calculate_individual_gas_risk (health_impact_factors Gas.no2) 250).risk_level =
      RiskLevel.critical ∧
    0 ≤ (calculate_individual_gas_risk (health_impact_factors Gas.no2) 250).risk_score ∧
    (calculate_individual_gas_risk (health_impact_factors Gas.no2) 250).risk_score ≤ 100 := by
  have h := c1_gas_risk_band_formulas (health_impact_factors Gas.no2) 250
    (by norm_num [health_impact_factors]) (by norm_num [health_impact_factors])
    (by norm_num [health_impact_factors]) (by norm_num [health_impact_factors])
    (by norm_num)
  exact ⟨(h.2.2.2.1 (by norm_num [health_impact_factors])).1,
    h.2.2.2.2.1, h.2.2.2.2.2⟩

/-- C10: a strictly negative reading falls into the `level ≤ low` branch,
so the band is `low` and the score is `(v / low) * 25`, a strictly negative
number: the final `min(risk_score, 100)` only clamps from above. -/
theorem c10_negative_reading_negative_score (t : Thresholds) (v : ℚ)
    (h0 : 0 < t.low) (hv : v < 0) :
    (calculate_individual_gas_risk t v).risk_level = RiskLevel.low ∧
    (calculate_individual_gas_risk t v).risk_score = (v / t.low) * 25 ∧
    (calculate_individual_gas_risk t v).risk_score < 0 := by
  have hA : v ≤ t.low := le_of_lt (lt_trans hv h0)
  have heq := cigr_eq_low (t := t) hA
  have hneg : (v / t.low) * 25 < 0 := by
    have hd : v / t.low < 0 := div_neg_of_neg_of_pos hv h0
    nlinarith
  have hmin : min ((v / t.low) * 25) 100 = (v / t.low) * 25 :=
    min_eq_left (by linarith)
  refine ⟨by rw [heq], by rw [heq]; exact hmin, by rw [heq]; rw [hmin]; exact hneg⟩

/-- C10 witness: at the CO₂ thresholds and reading −5 the theorem applies:
band `low`, score `(−5/400)·25 < 0`. -/
theorem c10_negative_reading_negative_score_witness :
    (calculate_individual_gas_risk (health_impact_factors Gas.co2) (-5)).risk_level =
      RiskLevel.low ∧
    (calculate_individual_gas_risk (health_impact_factors Gas.co2) (-5)).risk_score < 0 := by
  have h := c10_negative_reading_negative_score (health_impact_factors Gas.co2) (-5)
    (by norm_num [health_impact_factors]) (by norm_num)
  exact ⟨h.1, h.2.2⟩

/-- C3: with the 10-minute persistence threshold, (1) every alert a tick
returns is for a key whose candidate already existed before the tick and is
at least 10 minutes old; (2) a tick whose band for a present gas is `low`
or `moderate` removes every candidate of that gas; (3) a candidate filled at
this tick starts at the tick's time, so after a clearing tick a new
candidate must again age a full threshold before an alert. -/
theorem c3_persistence_gate_and_fast_clear (cur : ℚ) (rd : Readings)
    (st : ActiveAlerts) :
    (∀ a ∈ (check_alerts 10 cur rd st).2,
      ∃ c, st (a.gas, a.risk_level) = some c ∧ 10 ≤ cur - c.start_time) ∧
    (∀ (g : Gas) (v : ℚ), lookupReading rd g = some v →
      ((calculate_individual_gas_risk (health_impact_factors g) v).risk_level
          = RiskLevel.low ∨
        (calculate_individual_gas_risk (health_impact_factors g) v).risk_level
          = RiskLevel.moderate) →
      ∀ b : RiskLevel, (check_alerts 10 cur rd st).1 (g, b) = none) ∧
    (∀ (k : Gas × RiskLevel) (c : Candidate), st k = none →
      (check_alerts 10 cur rd st).1 k = some c → c.start_time = cur) := by
  refine ⟨fun a ha => ?_,
    fun g v hrd hlm b => check_alerts_clears 10 cur rd st g v hrd hlm b,
    fun k c h0 h1 => check_alerts_new_candidate 10 cur rd st k c h0 h1⟩
  obtain ⟨c, hc, hdur, hθ⟩ :=
    check_alerts_alert_provenance 10 cur rd st a (by norm_num) ha
  exact ⟨c, hc, hdur ▸ hθ⟩

/-- C3 witness: the dip trace's minute-10 alert is backed by the critical
candidate opened at minute 0, aged exactly the threshold. -/
theorem c3_persistence_gate_and_fast_clear_witness :
    ∃ c, dipState2 (Gas.no2, RiskLevel.critical) = some c ∧
      (10 : ℚ) ≤ 10 - c.start_time := by
  have hmem : dipAlert ∈ (check_alerts 10 10 dipCritical dipState2).2 := by
    rw [show (check_alerts 10 10 dipCritical dipState2).2 = dipFinal.2 from rfl,
      dipFinal_alerts]
    exact List.mem_singleton.mpr rfl
  exact (c3_persistence_gate_and_fast_clear 10 dipCritical dipState2).1
    dipAlert hmem

/-- C9: a tick whose band for a gas is `high` leaves that gas's `critical`
candidate untouched, and in the concrete critical–high–critical dip trace
(minutes 0, 5, 10) the minute-10 tick emits a critical alert of duration 10
minutes although the band at minute 5 was only high. -/
theorem c9_high_dip_keeps_critical_candidate :
    (∀ (θ cur : ℚ) (rd : Readings) (st : ActiveAlerts) (g : Gas) (v : ℚ),
      lookupReading rd g = some v →
      (calculate_individual_gas_risk (health_impact_factors g) v).risk_level
        = RiskLevel.high →
      (check_alerts θ cur rd st).1 (g, RiskLevel.critical)
        = st (g, RiskLevel.critical)) ∧
    (calculate_individual_gas_risk (health_impact_factors Gas.no2) 150).risk_level
      = RiskLevel.high ∧
    dipFinal.2 = [dipAlert] ∧
    dipAlert.risk_level = RiskLevel.critical ∧
    dipAlert.duration_minutes = 10 :=
  ⟨fun θ cur rd st g v hrd hq =>
      check_alerts_high_keeps_critical θ cur rd st g v hrd hq,
    no2_band_150, dipFinal_alerts, rfl, rfl⟩

/-- C9 witness: applying the frame part at the dip trace's minute-5 tick:
the `(no2, critical)` candidate survives the high-band tick unchanged. -/
theorem c9_high_dip_keeps_critical_candidate_witness :
    (check_alerts 10 5 dipHigh dipState1).1 (Gas.no2, RiskLevel.critical)
      = dipState1 (Gas.no2, RiskLevel.critical) :=
  c9_high_dip_keeps_critical_candidate.1 10 5 dipHigh dipState1 Gas.no2 150
    rfl (by decide)

/-- C8 counterexample: a negative CO₂ reading is not rejected and does
mutate the alert state: with a CO₂ critical candidate present, the tick on
`co2 = -5` deletes it (the claim says malformed input leaves the candidate
state unchanged). -/
theorem c8_counterexample_negative_mutates :
    (check_alerts 10 0 [("co2", -5)] exampleCo2State).1
        (Gas.co2, RiskLevel.critical)
      ≠ exampleCo2State (Gas.co2, RiskLevel.critical) := by
  have hb : (calculate_individual_gas_risk (health_impact_factors Gas.co2) (-5)).risk_level
      = RiskLevel.low :=
    cigr_neg_band_low _ _ (health_impact_factors_low_pos Gas.co2) (by norm_num)
  rw [check_alerts_clears 10 0 [("co2", -5)] exampleCo2State Gas.co2 (-5) rfl
    (Or.inl hb) RiskLevel.critical]
  simp [exampleCo2State]

/-- C8 (amended): `check_alerts` raises no validation error on malformed
input: an entry with an unknown signal name is silently ignored (the tick
is unchanged by inserting it anywhere in the dict), and a negative value is
processed as a band-low reading, which clears every candidate of that gas
rather than leaving the state unchanged. -/
theorem c8_no_validation_error (θ cur : ℚ) (st : ActiveAlerts)
    (r₁ r₂ : Readings) (n : String) (v : ℚ)
    (hn : n ≠ "co2" ∧ n ≠ "no2" ∧ n ≠ "so2") :
    check_alerts θ cur (r₁ ++ (n, v) :: r₂) st
      = check_alerts θ cur (r₁ ++ r₂) st ∧
    (∀ (rd : Readings) (g : Gas) (w : ℚ), w < 0 →
      lookupReading rd g = some w →
      ∀ b : RiskLevel, (check_alerts θ cur rd st).1 (g, b) = none) := by
  constructor
  · apply check_alerts_congr
    intro g
    apply lookupReading_insert_unknown
    cases g
    exacts [hn.1, hn.2.1, hn.2.2]
  · intro rd g w hw hrd b
    exact check_alerts_clears θ cur rd st g w hrd
      (Or.inl (cigr_neg_band_low _ _ (health_impact_factors_low_pos g) hw)) b

/-- C8 witness: inserting an unknown signal `"pm25"` leaves the tick
unchanged, and the negative-value clearing applies at `co2 = -5`. -/
theorem c8_no_validation_error_witness :
    (check_alerts 10 0 ([] ++ ("pm25", (3:ℚ)) :: [("co2", -5)]) exampleCo2State
      = check_alerts 10 0 ([] ++ [("co2", -5)]) exampleCo2State) ∧
    (∀ (rd : Readings) (g : Gas) (w : ℚ), w < 0 →
      lookupReading rd g = some w →
      ∀ b : RiskLevel,
        (check_alerts 10 0 rd exampleCo2State).1 (g, b) = none) :=
  c8_no_validation_error 10 0 exampleCo2State [] [("co2", -5)] "pm25" 3
    ⟨by decide, by decide, by decide⟩

/-! ## Sync store lemmas -/

lemma Store.get_set_same (s : Store) (tbl : Table) (l : List StoredRecord) :
    (s.set tbl l).get tbl = l := by
  cases tbl <;> rfl

lemma Store.get_set_ne (s : Store) (tbl tbl' : Table) (l : List StoredRecord)
    (h : tbl ≠ tbl') : (s.set tbl l).get tbl' = s.get tbl' := by
  cases tbl <;> cases tbl' <;> first | rfl | exact absurd rfl h

lemma Store.set_set (s : Store) (tbl : Table) (l l' : List StoredRecord) :
    (s.set tbl l).set tbl l' = s.set tbl l' := by
  cases tbl <;> rfl

lemma Store.set_get (s : Store) (tbl : Table) : s.set tbl (s.get tbl) = s := by
  cases tbl <;> rfl

/-- Per table, `cleanup_old_data` is the SQL `DELETE` statement's filter. -/
lemma cleanup_old_data_get (s : Store) (cutoff : ℕ) (tbl : Table) :
    (cleanup_old_data s cutoff).get tbl
      = (s.get tbl).filter (fun r => !(r.synced && decide (r.created_at < cutoff))) := by
  cases tbl <;> rfl

/-- The update `markRecord` is idempotent. -/
lemma markRecord_markRecord (ids : List ℕ) (r : StoredRecord) :
    markRecord ids (markRecord ids r) = markRecord ids r := by
  unfold markRecord
  by_cases hc : r.id ∈ ids <;> simp [hc]

/-- Mapping a pointwise-related function along a list relates the list to
its image. -/
lemma forall₂_map_self {α : Type} (f : α → α) (P : α → α → Prop)
    (h : ∀ a, P a (f a)) : ∀ l : List α, List.Forall₂ P l (l.map f)
  | [] => List.Forall₂.nil
  | a :: l => List.Forall₂.cons (h a) (forall₂_map_self f P h l)

/-- After marking the snapshot of unsynced rows, a table has no unsynced
row left. -/
lemma filter_unsynced_after_mark (rows : List StoredRecord) :
    (rows.map (markRecord ((rows.filter (fun r => !r.synced)).map StoredRecord.id))).filter
        (fun r => !r.synced) = [] := by
  rw [List.filter_eq_nil_iff]
  intro r' hr'
  rcases List.mem_map.mp hr' with ⟨r, hr, rfl⟩
  unfold markRecord
  by_cases hs : r.synced = true
  · split_ifs <;> simp [hs]
  · have hmem : r.id ∈ (rows.filter (fun x => !x.synced)).map StoredRecord.id :=
      List.mem_map.mpr ⟨r, List.mem_filter.mpr ⟨hr, by simp [hs]⟩, rfl⟩
    have hcont : ((rows.filter (fun x => !x.synced)).map StoredRecord.id).contains r.id
        = true := by
      simpa using hmem
    rw [if_pos hcont]
    simp

/-- A `syncStep` for one table reads and writes only that table. -/
lemma syncStep_get_ne (push : Table → List StoredRecord → Bool)
    (u : Table → List StoredRecord) (acc : Store) (tbl tbl' : Table)
    (h : tbl ≠ tbl') : (syncStep push u acc tbl).get tbl' = acc.get tbl' := by
  unfold syncStep mark_as_synced
  split_ifs
  · rfl
  · exact Store.get_set_ne _ _ _ _ h
  · rfl

lemma syncStep_get_same (push : Table → List StoredRecord → Bool)
    (u : Table → List StoredRecord) (acc : Store) (tbl : Table) :
    (syncStep push u acc tbl).get tbl =
      if (u tbl).isEmpty then acc.get tbl
      else if push tbl (u tbl) then
        (acc.get tbl).map (markRecord ((u tbl).map StoredRecord.id))
      else acc.get tbl := by
  unfold syncStep mark_as_synced
  split_ifs
  · rfl
  · exact Store.get_set_same _ _ _
  · rfl

/-- One table's view of a whole `_perform_sync` cycle: untouched when its
snapshot batch is empty or its push failed, marked from the original store
when its push succeeded. -/
lemma perform_sync_get (push : Table → List StoredRecord → Bool) (s : Store)
    (tbl : Table) :
    (perform_sync push s).get tbl =
      if (unsyncedRows s tbl).isEmpty then s.get tbl
      else if push tbl (unsyncedRows s tbl) then
        (s.get tbl).map (markRecord ((unsyncedRows s tbl).map StoredRecord.id))
      else s.get tbl := by
  have hu : perform_sync push s
      = syncStep push (fun t => unsyncedRows s t)
          (syncStep push (fun t => unsyncedRows s t)
            (syncStep push (fun t => unsyncedRows s t)
              (syncStep push (fun t => unsyncedRows s t) s
                Table.pollution_readings)
              Table.alerts)
            Table.actions)
          Table.reports := rfl
  cases tbl with
  | pollution_readings =>
    rw [hu,
      syncStep_get_ne _ _ _ _ _ (show Table.reports ≠ Table.pollution_readings by decide),
      syncStep_get_ne _ _ _ _ _ (show Table.actions ≠ Table.pollution_readings by decide),
      syncStep_get_ne _ _ _ _ _ (show Table.alerts ≠ Table.pollution_readings by decide),
      syncStep_get_same]
  | alerts =>
    rw [hu,
      syncStep_get_ne _ _ _ _ _ (show Table.reports ≠ Table.alerts by decide),
      syncStep_get_ne _ _ _ _ _ (show Table.actions ≠ Table.alerts by decide),
      syncStep_get_same,
      syncStep_get_ne _ _ _ _ _ (show Table.pollution_readings ≠ Table.alerts by decide)]
  | actions =>
    rw [hu,
      syncStep_get_ne _ _ _ _ _ (show Table.reports ≠ Table.actions by decide),
      syncStep_get_same,
      syncStep_get_ne _ _ _ _ _ (show Table.alerts ≠ Table.actions by decide),
      syncStep_get_ne _ _ _ _ _ (show Table.pollution_readings ≠ Table.actions by decide)]
  | reports =>
    rw [hu, syncStep_get_same,
      syncStep_get_ne _ _ _ _ _ (show Table.actions ≠ Table.reports by decide),
      syncStep_get_ne _ _ _ _ _ (show Table.alerts ≠ Table.reports by decide),
      syncStep_get_ne _ _ _ _ _ (show Table.pollution_readings ≠ Table.reports by decide)]

/-- C2 counterexample: while the connectivity flag is up, a stored reading
is inserted with `synced = 1`, not `synced = false` as the claim states
(`1 if self.is_online else 0`). -/
theorem c2_counterexample_online_append_synced :
    ¬ (∀ r ∈ (store_pollution_reading onlineState "r" 0).store.pollution_readings,
        r.synced = false) := by decide

/-- C2 (amended): each of the four store operations appends one record
whose `synced` flag equals the current `is_online` flag (so `false` exactly
when offline), and `mark_as_synced` is monotone on the flag: it preserves
id, payload and timestamp of every row, never turns `synced` back to
`false`, and sets it to `true` only for the listed ids — so over any
sequence of calls a record's flag flips `false → true` at most once. -/
theorem c2_append_flag_and_synced_monotone (s : SyncState) (p : String) (t : ℕ) :
    (store_pollution_reading s p t).store.pollution_readings
      = s.store.pollution_readings ++
        [{ id := nextId s.store.pollution_readings, payload := p,
           synced := s.is_online, created_at := t }] ∧
    (store_alert s p t).store.alerts
      = s.store.alerts ++
        [{ id := nextId s.store.alerts, payload := p,
           synced := s.is_online, created_at := t }] ∧
    (store_action s p t).store.actions
      = s.store.actions ++
        [{ id := nextId s.store.actions, payload := p,
           synced := s.is_online, created_at := t }] ∧
    (store_report s p t).store.reports
      = s.store.reports ++
        [{ id := nextId s.store.reports, payload := p,
           synced := s.is_online, created_at := t }] ∧
    (∀ (st : Store) (tbl : Table) (ids : List ℕ),
      List.Forall₂ (fun r r' : StoredRecord =>
          r.id = r'.id ∧ r.payload = r'.payload ∧ r.created_at = r'.created_at ∧
          (r.synced = true → r'.synced = true) ∧
          (r'.synced = true → r.synced = true ∨ ids.contains r.id = true))
        (st.get tbl) ((mark_as_synced st tbl ids).1.get tbl)) := by
  refine ⟨rfl, rfl, rfl, rfl, fun st tbl ids => ?_⟩
  have h : (mark_as_synced st tbl ids).1.get tbl
      = (st.get tbl).map (markRecord ids) := Store.get_set_same _ _ _
  rw [h]
  apply forall₂_map_self
  intro r
  unfold markRecord
  by_cases hc : ids.contains r.id = true
  · rw [if_pos hc]
    exact ⟨rfl, rfl, rfl, fun _ => rfl, fun _ => Or.inr hc⟩
  · rw [if_neg hc]
    exact ⟨rfl, rfl, rfl, fun hs => hs, fun hs => Or.inl hs⟩

/-- C2 witness: appending a reading while offline stores it with
`synced = false`. -/
theorem c2_append_flag_and_synced_monotone_witness :
    (store_pollution_reading offlineState "r" 1).store.pollution_readings
      = offlineState.store.pollution_readings ++
        [{ id := nextId offlineState.store.pollution_readings, payload := "r",
           synced := false, created_at := 1 }] :=
  (c2_append_flag_and_synced_monotone offlineState "r" 1).1

/-- C4: pruning deletes a record exactly when it is synced and strictly
older than the cutoff; an unsynced record survives regardless of age. -/
theorem c4_prune_only_synced_old (s : Store) (cutoff : ℕ) (tbl : Table)
    (r : StoredRecord) (hr : r ∈ s.get tbl) :
    (r ∈ (cleanup_old_data s cutoff).get tbl
        ↔ ¬(r.synced = true ∧ r.created_at < cutoff)) ∧
    (r.synced = false → r ∈ (cleanup_old_data s cutoff).get tbl) := by
  rw [cleanup_old_data_get]
  constructor
  · rw [List.mem_filter]
    constructor
    · rintro ⟨-, hf⟩ ⟨h1, h2⟩
      rw [h1] at hf
      simp [h2] at hf
    · intro h
      refine ⟨hr, ?_⟩
      by_cases h1 : r.synced = true
      · have h2 : ¬ r.created_at < cutoff := fun hlt => h ⟨h1, hlt⟩
        simp [h1, h2]
      · simp [h1]
  · intro h
    rw [List.mem_filter]
    exact ⟨hr, by simp [h]⟩

/-- C4 witness: in a store with one synced and one unsynced old reading,
pruning with a later cutoff keeps the unsynced one. -/
theorem c4_prune_only_synced_old_witness :
    ({ id := 2, payload := "r2", synced := false, created_at := 0 } : StoredRecord)
      ∈ (cleanup_old_data mixedStore 5).get Table.pollution_readings :=
  (c4_prune_only_synced_old mixedStore 5 Table.pollution_readings
    { id := 2, payload := "r2", synced := false, created_at := 0 }
    (by decide)).2 rfl

/-- C5 counterexample: after all listed records are already synced, a
second `mark_as_synced` call flips no record, yet it still returns the
success flag `True` — not the updated count 0 (a falsy value) the claim
says it returns. -/
theorem c5_counterexample_returns_flag_not_count :
    (mark_as_synced (mark_as_synced oneUnsyncedStore Table.pollution_readings [1]).1
        Table.pollution_readings [1]).2 = true ∧
    flippedCount (mark_as_synced oneUnsyncedStore Table.pollution_readings [1]).1
        Table.pollution_readings [1] = 0 := by decide

/-- C5 (amended): `mark_as_synced` is idempotent on the store and silently
ignores already-synced and unknown ids — a repeated call changes nothing
and an all-unknown id set leaves the store untouched — but its return value
is the success boolean `True`, not the count of records flipped. -/
theorem c5_mark_as_synced_idempotent (s : Store) (tbl : Table) (ids : List ℕ) :
    (mark_as_synced (mark_as_synced s tbl ids).1 tbl ids).1
      = (mark_as_synced s tbl ids).1 ∧
    (mark_as_synced (mark_as_synced s tbl ids).1 tbl ids).2 = true ∧
    ((∀ r ∈ s.get tbl, r.id ∉ ids) → (mark_as_synced s tbl ids).1 = s) := by
  refine ⟨?_, rfl, ?_⟩
  · unfold mark_as_synced
    dsimp only
    rw [Store.get_set_same, List.map_map, Store.set_set]
    congr 1
    exact List.map_congr_left (fun r _ => markRecord_markRecord ids r)
  · intro h
    unfold mark_as_synced
    dsimp only
    have hmap : (s.get tbl).map (markRecord ids) = s.get tbl := by
      have : (s.get tbl).map (markRecord ids) = (s.get tbl).map id :=
        List.map_congr_left (fun r hr => by
          unfold markRecord
          simp [h r hr])
      rw [this, List.map_id]
    rw [hmap, Store.set_get]

/-- C5 witness: the amended theorem at the one-record store with id set
`{1}`. -/
theorem c5_mark_as_synced_idempotent_witness :
    (mark_as_synced (mark_as_synced oneUnsyncedStore Table.pollution_readings [1]).1
        Table.pollution_readings [1]).1
      = (mark_as_synced oneUnsyncedStore Table.pollution_readings [1]).1 :=
  (c5_mark_as_synced_idempotent oneUnsyncedStore Table.pollution_readings [1]).1

/-- C6: one sync cycle isolates per-kind failure: a kind whose push fails
keeps its table byte-identical, a kind whose push succeeds ends with no
unsynced rows, and in the concrete 5-readings/3-alerts scenario with the
alerts push failing, readings drain to 0 unsynced while alerts keep 3. -/
theorem c6_partial_failure_isolation (push : Table → List StoredRecord → Bool)
    (s : Store) (tbl : Table) :
    (push tbl (unsyncedRows s tbl) = false →
      (perform_sync push s).get tbl = s.get tbl) ∧
    (push tbl (unsyncedRows s tbl) = true →
      unsyncedRows (perform_sync push s) tbl = []) ∧
    (unsyncedRows partialStore Table.pollution_readings).length = 5 ∧
    (unsyncedRows partialStore Table.alerts).length = 3 ∧
    unsyncedRows (perform_sync partialPush partialStore) Table.pollution_readings
      = [] ∧
    (unsyncedRows (perform_sync partialPush partialStore) Table.alerts).length = 3 ∧
    (perform_sync partialPush partialStore).get Table.alerts
      = partialStore.get Table.alerts := by
  refine ⟨?_, ?_, by decide, by decide, by decide, by decide, by decide⟩
  · intro h
    rw [perform_sync_get]
    split_ifs with h1 h2
    · rfl
    · rw [h] at h2
      exact absurd h2 (by simp)
    · rfl
  · intro h
    unfold unsyncedRows
    rw [perform_sync_get]
    split_ifs with h1
    · exact List.isEmpty_iff.mp h1
    · exact filter_unsynced_after_mark (s.get tbl)

/-- C6 witness: in the partial-failure scenario, the failing alerts push
leaves the alerts table untouched, and the succeeding readings push drains
the readings table. -/
theorem c6_partial_failure_isolation_witness :
    (perform_sync partialPush partialStore).get Table.alerts
      = partialStore.get Table.alerts ∧
    unsyncedRows (perform_sync partialPush partialStore) Table.pollution_readings
      = [] := by
  constructor
  · exact (c6_partial_failure_isolation partialPush partialStore Table.alerts).1
      (by decide)
  · exact (c6_partial_failure_isolation partialPush partialStore
      Table.pollution_readings).2.1 (by decide)

/-- C7 counterexample: with the connectivity flag down and one pending
reading, `force_sync` still runs the cycle and the record ends up marked
synced — the claim says an offline cycle is skipped entirely with no record
marked synced. -/
theorem c7_counterexample_force_sync_ignores_offline :
    offlineState.is_online = false ∧
    (force_sync alwaysPush offlineState).1.store ≠ offlineState.store := by decide

/-- C7 (amended): only the scheduled loop consults connectivity, and only
via the cached `is_online` flag (no fresh probe): a scheduled tick with the
flag down is a no-op, while `force_sync` calls `_perform_sync` directly and
unconditionally, whatever the flag says. -/
theorem c7_scheduled_skips_offline_force_does_not
    (push : Table → List StoredRecord → Bool) (s : SyncState) :
    (s.is_online = false → sync_worker_tick push s = s) ∧
    (force_sync push s).1.store = perform_sync push s.store ∧
    (force_sync push s).2 = true := by
  refine ⟨fun h => ?_, rfl, rfl⟩
  simp [sync_worker_tick, h]

/-- C7 witness: the offline state with a pending record: the scheduled tick
leaves it untouched (while `force_sync` on the same state does not, per the
counterexample). -/
theorem c7_scheduled_skips_offline_witness :
    sync_worker_tick alwaysPush offlineState = offlineState :=
  (c7_scheduled_skips_offline_force_does_not alwaysPush offlineState).1 rfl

end Airevive
